import Mathlib

/-!
Shallow embedding of `DataLoggerMqttSubTopics.ino` (MQTT light-sensor
datalogger). Machine integers are modelled as `Nat`/`Int`; the `unsigned
long` reading counter wraps modulo `2^32` as in C. External hardware and
libraries (WiFi link, RTC reads, the Adafruit sensor formulas, broker
connect outcomes) are modelled as inputs supplied to each loop iteration.
-/

/-- Modulus of a 32-bit `unsigned long` on the SAMD21 target. -/
def u32Mod : Nat := 2 ^ 32

/-- Source line 43: `char topic[] = "light-readings";`. -/
def topic : String := "light-readings"

/-- Source line 46: `const char location[] = "home";`. -/
def location : String := "home"

/-- Source line 56: `int sendInterval = 1;` (minutes between sends). -/
def sendInterval : Int := 1

/-- Source line 58: keep-alive interval derived from the send interval. -/
def keepAliveInterval : Int := sendInterval * 2 * 60 * 1000

/-- Source line 45 and line 90: client id is "light-client-" plus the location. -/
def clientID : String := "light-client-" ++ location

/-- The mutable module-level state of the sketch, plus a log of the publish
operations (`beginMessage`/`print`/`endMessage` triples) and subscriptions
performed so far, and the externally visible connection flags. -/
structure LoggerState where
  addressString : String
  wifiConnected : Bool
  mqttConnected : Bool
  startTime : Nat
  lastSendTime : Int
  readingCount : Nat
  rtcEpoch : Nat
  subscriptions : List String
  published : List (String × String)
  deriving DecidableEq

/-- Environment inputs consumed by one iteration of `loop()`: the WiFi
status at the top of the iteration, the (nonzero) epoch a blocking
`connectToNetwork()` would eventually fetch, whether `mqttClient.connect`
would succeed if attempted, and the RTC / sensor-library readings. -/
structure LoopInput where
  wifiUp : Bool
  netEpoch : Nat
  brokerOk : Bool
  minutes : Nat
  epoch : Nat
  lux : Nat
  ct : Nat
  deriving DecidableEq

/-- Hexadecimal digit as produced by Arduino `String(n, HEX)` (lowercase). -/
def hexDigit (n : Nat) : Char :=
  if n < 10 then Char.ofNat (48 + n) else Char.ofNat (87 + n)

/-- Arduino `String(b, HEX)` for a byte value `b < 256`: one digit below 16,
two digits otherwise, no padding. -/
def stringHexByte (b : Nat) : String :=
  if b < 16 then String.mk [hexDigit b]
  else String.mk [hexDigit (b / 16), hexDigit (b % 16)]

/-- Source lines 74-80: the body of the MAC loop appends a "0" placeholder
for byte values below 16 and then the hexadecimal rendering of the byte. -/
def byteHex (b : Nat) : String :=
  (if b < 16 then "0" else "") ++ stringHexByte b

/-- Source lines 73-81: `for (int i = 5; i >= 0; i--)` over the 6-byte MAC,
appending each byte's rendering to `addressString` (initially empty).
Iterating indices 5 down to 0 is a left fold over the reversed byte list. -/
def buildAddressString (mac : List Nat) : String :=
  List.foldl (fun acc b => acc ++ byteHex b) "" mac.reverse

/-- Source lines 148-154, `sendMessage(subTopic, val)`: concatenates the
base topic, "/", and the subtopic, then performs one discrete publish
(`beginMessage`/`print`/`endMessage`), recorded as a (topic, payload) pair. -/
def sendMessage (subTopic val : String) : String × String :=
  (topic ++ "/" ++ subTopic, val)

/-- C unsigned 32-bit subtraction, for `rtc.getEpoch() - startTime`. -/
def usub32 (a b : Nat) : Nat :=
  (a + (u32Mod - b % u32Mod)) % u32Mod

/-- Source lines 128-146, `readSensor()`: the sensor-library outputs `lux`
and `ct` (computed by the external Adafruit formulas from the raw channels)
plus the contextual fields are each published via `sendMessage`, in source
order. Returns the list of publish operations the call performs. -/
def readSensor (addressString : String) (epoch startTime lux ct readingCount : Nat) :
    List (String × String) :=
  [ sendMessage "uid" addressString
  , sendMessage "location" location
  , sendMessage "timeStamp" (toString epoch)
  , sendMessage "lux" (toString lux)
  , sendMessage "ct" (toString ct)
  , sendMessage "uptime" (toString (usub32 epoch startTime))
  , sendMessage "readingCount" (toString readingCount) ]

/-- Source lines 183-196, `connectToBroker()`: one `mqttClient.connect`
attempt whose outcome is the input `connectOk`; on failure it returns
`false` having changed nothing; on success it subscribes to the base topic
and returns `true`. -/
def connectToBroker (s : LoggerState) (connectOk : Bool) : LoggerState × Bool :=
  if !connectOk then (s, false)
  else ({ s with mqttConnected := true,
                 subscriptions := s.subscriptions ++ [topic] }, true)

/-- Source lines 166-181, the tail of `connectToNetwork()` once its retry
loops have obtained the (nonzero) `epoch`: the WiFi link is now associated,
`rtc.setEpoch(epoch)` is applied, and `startTime` is set from
`rtc.getEpoch()` only when it is still zero. -/
def syncClock (s : LoggerState) (epoch : Nat) : LoggerState :=
  let s2 := { s with wifiConnected := true, rtcEpoch := epoch }
  if s2.startTime = 0 then { s2 with startTime := s2.rtcEpoch } else s2

/-- Source line 114: the interval gate
`abs(rtc.getMinutes() - lastSendTime) >= sendInterval`. -/
def gateAbs (lastSend : Int) (minute : Nat) : Bool :=
  sendInterval ≤ |(minute : Int) - lastSend|

/-- Source lines 106-122, the body of `loop()` after the WiFi check:
if the broker client is not connected, call `connectToBroker()` once and
end the iteration (both on failure and on success); otherwise, if the
absolute-difference minute gate passes, run `readSensor()`, increment
`readingCount` (32-bit wrap), and set `lastSendTime` to the current
minute. -/
def loopBody (s1 : LoggerState) (inp : LoopInput) : LoggerState :=
  if !s1.mqttConnected then (connectToBroker s1 inp.brokerOk).1
  else if gateAbs s1.lastSendTime inp.minutes then
    { s1 with
      published := s1.published ++
        readSensor s1.addressString inp.epoch s1.startTime inp.lux inp.ct s1.readingCount,
      readingCount := (s1.readingCount + 1) % u32Mod,
      lastSendTime := (inp.minutes : Int) }
  else s1

/-- One iteration of `loop()`: the WiFi check of lines 102-104 followed by
`loopBody`. -/
def loopStep (s : LoggerState) (inp : LoopInput) : LoggerState :=
  loopBody (if inp.wifiUp then s else syncClock s inp.netEpoch) inp

/-- Run a sequence of loop iterations. -/
def run (s : LoggerState) (ins : List LoopInput) : LoggerState :=
  ins.foldl loopStep s

/-- Whether a given iteration reaches the sensor read: the client is
connected (after the WiFi check) and the minute gate passes. -/
def readHappens (s : LoggerState) (inp : LoopInput) : Bool :=
  let s1 := if inp.wifiUp then s else syncClock s inp.netEpoch
  s1.mqttConnected && gateAbs s1.lastSendTime inp.minutes

/-- Number of iterations of a run that reach the sensor read. -/
def numReads (s : LoggerState) : List LoopInput → Nat
  | [] => 0
  | inp :: rest =>
      (if readHappens s inp then 1 else 0) + numReads (loopStep s inp) rest

/-- Environment of `connectToNetwork()`: the WiFi status observed at the
k-th check of its association loop, and the epoch returned by the k-th
`WiFi.getTime()` call of its time-fetch loop. -/
structure NetEnv where
  status : Nat → Bool
  getTime : Nat → Nat

/-- Source lines 158-163: `while (WiFi.status() != WL_CONNECTED)` retry
loop, fuelled; returns the index of the first check reporting connected. -/
def awaitWifi (env : NetEnv) (k : Nat) : Nat → Option Nat
  | 0 => none
  | fuel + 1 => if env.status k then some k else awaitWifi env (k + 1) fuel

/-- Source lines 167-172: `do { epoch = WiFi.getTime(); } while (epoch == 0)`
retry loop, fuelled; returns the first nonzero epoch fetched. -/
def awaitTime (env : NetEnv) (k : Nat) : Nat → Option Nat
  | 0 => none
  | fuel + 1 =>
      if env.getTime k ≠ 0 then some (env.getTime k)
      else awaitTime env (k + 1) fuel

/-- Source lines 156-181, `connectToNetwork()`: block until associated,
then block until a nonzero epoch is fetched, then apply the clock update.
The function itself returns `void` — it surfaces no failure value; `none`
here only means the given fuel did not cover the retries yet. -/
def connectToNetworkFuel (env : NetEnv) (s : LoggerState) (fuel : Nat) :
    Option LoggerState :=
  match awaitWifi env 0 fuel with
  | none => none
  | some _ =>
      match awaitTime env 0 fuel with
      | none => none
      | some e => some (syncClock s e)

/-- Modelled from the spec: a gate based on the true elapsed whole minutes
since the last send ("an elapsed-duration computation based on monotonic
epoch seconds"), for comparison with the source's `gateAbs`. -/
def gateElapsed (elapsedMinutes : Nat) : Bool :=
  sendInterval ≤ (elapsedMinutes : Int)

/-- The lowercase hexadecimal alphabet. -/
def hexChars : List Char := "0123456789abcdef".toList

/-- Whether a character is a lowercase hexadecimal digit. -/
def isHexLower (c : Char) : Bool := hexChars.contains c

/-- Two-lowercase-hex-digit rendering of a byte (high digit first), the
per-byte rendering named by claim C10. -/
def twoHexLower (b : Nat) : String :=
  String.mk [hexDigit (b / 16), hexDigit (b % 16)]

/-- Concatenation of the two-digit renderings of a byte list. -/
def concatHex2 : List Nat → String
  | [] => ""
  | b :: rest => twoHexLower b ++ concatHex2 rest

/-- The uid rendering described by claim C10: the MAC bytes in reversed
order, each as two lowercase hexadecimal digits. -/
def reversedMacHex (mac : List Nat) : String :=
  concatHex2 mac.reverse

/-! ### Helper lemmas on strings and the embedded components -/

theorem strDataAppend (a b : String) : (a ++ b).data = a.data ++ b.data := rfl

theorem strLengthAppend (a b : String) : (a ++ b).length = a.length + b.length := by
  show (a ++ b).data.length = a.data.length + b.data.length
  rw [strDataAppend, List.length_append]

theorem strAppendAssoc (a b c : String) : a ++ b ++ c = a ++ (b ++ c) := by
  cases a; cases b; cases c
  exact congrArg String.mk (List.append_assoc _ _ _)

theorem strNilAppend (s : String) : "" ++ s = s := by
  cases s; rfl

theorem strAppendNil (s : String) : s ++ "" = s := by
  cases s
  exact congrArg String.mk (List.append_nil _)

theorem byteHexEqTwoHex (b : Nat) : byteHex b = twoHexLower b := by
  by_cases h : b < 16
  · have h1 : b / 16 = 0 := Nat.div_eq_of_lt h
    have h2 : b % 16 = b := Nat.mod_eq_of_lt h
    simp only [byteHex, stringHexByte, twoHexLower, h, if_pos, h1, h2]
    rfl
  · simp only [byteHex, stringHexByte, twoHexLower, h, if_neg, if_false]
    exact strNilAppend _

theorem foldHexEqConcat : ∀ (l : List Nat) (acc : String),
    List.foldl (fun acc b => acc ++ byteHex b) acc l = acc ++ concatHex2 l := by
  intro l
  induction l with
  | nil => intro acc; simp only [List.foldl, concatHex2]; exact (strAppendNil acc).symm
  | cons b rest ih =>
      intro acc
      simp only [List.foldl, concatHex2]
      rw [ih, byteHexEqTwoHex, strAppendAssoc]

theorem buildAddressStringEq (mac : List Nat) :
    buildAddressString mac = reversedMacHex mac := by
  unfold buildAddressString reversedMacHex
  rw [foldHexEqConcat, strNilAppend]

theorem twoHexLowerLength (b : Nat) : (twoHexLower b).length = 2 := rfl

theorem concatHex2Length : ∀ l : List Nat, (concatHex2 l).length = 2 * l.length := by
  intro l
  induction l with
  | nil => rfl
  | cons b rest ih =>
      simp only [concatHex2, strLengthAppend, twoHexLowerLength, ih, List.length_cons]
      omega

theorem hexDigitLower : ∀ n, n < 16 → isHexLower (hexDigit n) = true := by decide

theorem concatHex2Chars : ∀ l : List Nat, (∀ b ∈ l, b < 256) →
    ∀ c ∈ (concatHex2 l).data, isHexLower c = true := by
  intro l
  induction l with
  | nil => intro _ c hc; simp only [concatHex2] at hc; cases hc
  | cons b rest ih =>
      intro hb c hc
      simp only [concatHex2, strDataAppend, List.mem_append] at hc
      rcases hc with hc | hc
      · have hb256 : b < 256 := hb b (List.mem_cons_self b rest)
        have hdiv : b / 16 < 16 := (Nat.div_lt_iff_lt_mul (by norm_num)).mpr (by omega)
        have hmod : b % 16 < 16 := Nat.mod_lt _ (by norm_num)
        have hdata : (twoHexLower b).data = [hexDigit (b / 16), hexDigit (b % 16)] := rfl
        rw [hdata] at hc
        simp only [List.mem_cons, List.not_mem_nil, or_false] at hc
        rcases hc with h | h
        · exact h ▸ hexDigitLower _ hdiv
        · exact h ▸ hexDigitLower _ hmod
      · exact ih (fun x hx => hb x (List.mem_cons_of_mem b hx)) c hc

theorem syncClockReadingCount (s : LoggerState) (e : Nat) :
    (syncClock s e).readingCount = s.readingCount := by
  simp only [syncClock]; split <;> rfl

theorem syncClockMqttConnected (s : LoggerState) (e : Nat) :
    (syncClock s e).mqttConnected = s.mqttConnected := by
  simp only [syncClock]; split <;> rfl

theorem syncClockLastSendTime (s : LoggerState) (e : Nat) :
    (syncClock s e).lastSendTime = s.lastSendTime := by
  simp only [syncClock]; split <;> rfl

theorem syncClockPublished (s : LoggerState) (e : Nat) :
    (syncClock s e).published = s.published := by
  simp only [syncClock]; split <;> rfl

theorem syncClockAddressString (s : LoggerState) (e : Nat) :
    (syncClock s e).addressString = s.addressString := by
  simp only [syncClock]; split <;> rfl

theorem syncClockWifiConnected (s : LoggerState) (e : Nat) :
    (syncClock s e).wifiConnected = true := by
  simp only [syncClock]; split <;> rfl

theorem syncClockRtcEpoch (s : LoggerState) (e : Nat) :
    (syncClock s e).rtcEpoch = e := by
  simp only [syncClock]; split <;> rfl

theorem syncClockStartTimePos (s : LoggerState) (e : Nat) (h : s.startTime ≠ 0) :
    (syncClock s e).startTime = s.startTime := by
  simp only [syncClock]
  split
  · next hz => exact absurd hz h
  · rfl

theorem syncClockStartTimeZero (s : LoggerState) (e : Nat) (h : s.startTime = 0) :
    (syncClock s e).startTime = e := by
  simp only [syncClock]
  split
  · rfl
  · next hz => exact absurd h hz

theorem connectToBrokerReadingCount (s : LoggerState) (ok : Bool) :
    ((connectToBroker s ok).1).readingCount = s.readingCount := by
  cases ok <;> rfl

theorem connectToBrokerAddressString (s : LoggerState) (ok : Bool) :
    ((connectToBroker s ok).1).addressString = s.addressString := by
  cases ok <;> rfl

theorem loopBodyReadingCount (s1 : LoggerState) (inp : LoopInput) :
    (loopBody s1 inp).readingCount =
      if s1.mqttConnected && gateAbs s1.lastSendTime inp.minutes
      then (s1.readingCount + 1) % u32Mod else s1.readingCount := by
  cases hm : s1.mqttConnected
  · simp [loopBody, hm, connectToBrokerReadingCount]
  · cases hg : gateAbs s1.lastSendTime inp.minutes <;> simp [loopBody, hm, hg]

theorem loopStepReadingCount (s : LoggerState) (inp : LoopInput) :
    (loopStep s inp).readingCount =
      if readHappens s inp then (s.readingCount + 1) % u32Mod else s.readingCount := by
  cases hw : inp.wifiUp <;>
    simp [loopStep, readHappens, hw, loopBodyReadingCount, syncClockReadingCount,
      syncClockMqttConnected, syncClockLastSendTime]

theorem loopBodyAddressString (s1 : LoggerState) (inp : LoopInput) :
    (loopBody s1 inp).addressString = s1.addressString := by
  cases hm : s1.mqttConnected
  · simp [loopBody, hm, connectToBrokerAddressString]
  · cases hg : gateAbs s1.lastSendTime inp.minutes <;> simp [loopBody, hm, hg]

theorem loopStepAddressString (s : LoggerState) (inp : LoopInput) :
    (loopStep s inp).addressString = s.addressString := by
  cases hw : inp.wifiUp <;>
    simp [loopStep, hw, loopBodyAddressString, syncClockAddressString]

/-! ### Claim theorems -/

/-- Concrete iteration refuting the same-iteration part of C1: broker
disconnected, the connect attempt will succeed, and the minute gate would
pass. -/
def c1State : LoggerState :=
  { addressString := "aabbccddeeff", wifiConnected := true,
    mqttConnected := false, startTime := 100, lastSendTime := 0,
    readingCount := 0, rtcEpoch := 460, subscriptions := [],
    published := [] }

/-- Loop input for the C1 counterexample iteration. -/
def c1Input : LoopInput :=
  { wifiUp := true, netEpoch := 1, brokerOk := true, minutes := 5,
    epoch := 460, lux := 100, ct := 4000 }

/-- C1, counterexample: in an iteration where the broker client reports not
connected, `connectToBroker()` succeeds, and the interval gate would pass,
the loop does NOT proceed to the sensor read and publish in that same
iteration — `readingCount`, `published`, and `lastSendTime` are all
unchanged even though the client ends the iteration connected. -/
theorem c1_success_same_iteration_counterexample :
    c1State.mqttConnected = false ∧ c1Input.brokerOk = true ∧
    gateAbs c1State.lastSendTime c1Input.minutes = true ∧
    (loopStep c1State c1Input).mqttConnected = true ∧
    (loopStep c1State c1Input).readingCount = c1State.readingCount ∧
    (loopStep c1State c1Input).published = c1State.published ∧
    (loopStep c1State c1Input).lastSendTime = c1State.lastSendTime := by
  decide

/-- C1 (amended): in every loop iteration where the broker client reports
not connected (WiFi being up), `connectToBroker()` is invoked once; on
failure the iteration falls through with no state retained; on success the
client is connected and subscribed to the base topic, but the iteration
ends there — the interval check, sensor read and publish run only in a
later iteration in which the client is already connected. -/
theorem c1_broker_reconnect_amended (s : LoggerState) (inp : LoopInput)
    (hw : inp.wifiUp = true) (hm : s.mqttConnected = false) :
    (inp.brokerOk = false → loopStep s inp = s) ∧
    (inp.brokerOk = true →
      loopStep s inp =
        { s with mqttConnected := true,
                 subscriptions := s.subscriptions ++ [topic] }) := by
  constructor <;> intro hb <;>
    simp [loopStep, loopBody, hw, hm, connectToBroker, hb]

/-- Concrete state for the C1 amended-claim witness. -/
def c1WState : LoggerState :=
  { addressString := "0a1b2c3d4e5f", wifiConnected := true,
    mqttConnected := false, startTime := 7, lastSendTime := 3,
    readingCount := 2, rtcEpoch := 99, subscriptions := ["light-readings"],
    published := [] }

/-- Concrete input for the C1 amended-claim witness. -/
def c1WInput : LoopInput :=
  { wifiUp := true, netEpoch := 5, brokerOk := true, minutes := 9,
    epoch := 99, lux := 3, ct := 4 }

/-- Witness for the amended C1 at a concrete state and input. -/
theorem c1_broker_reconnect_amended_witness :
    loopStep c1WState c1WInput =
      { c1WState with mqttConnected := true,
                      subscriptions := c1WState.subscriptions ++ [topic] } :=
  (c1_broker_reconnect_amended c1WState c1WInput rfl rfl).2 rfl

/-- C2: there is a pair of absolute minutes, spanning an hour boundary,
where the source's gate `abs(currentMinute - lastSendTime) >= sendInterval`
on the minute-of-hour values decides differently from a gate on the true
elapsed whole minutes since the last send: the absolute-difference
minute comparison does not implement elapsed-interval gating across
wraparound. -/
theorem c2_abs_minute_gate_wraparound :
    ∃ t0 t1 : Nat, t0 ≤ t1 ∧ t0 / 60 ≠ t1 / 60 ∧
      gateAbs ((t0 % 60 : Nat) : Int) (t1 % 60) ≠ gateElapsed (t1 - t0) :=
  ⟨59, 119, by decide⟩

/-- Initial state for the C3 scenario: connected to the broker,
`lastSendTime = 0`, `readingCount = 0`. -/
def c3State : LoggerState :=
  { addressString := "aabbccddeeff", wifiConnected := true,
    mqttConnected := true, startTime := 100, lastSendTime := 0,
    readingCount := 0, rtcEpoch := 160, subscriptions := ["light-readings"],
    published := [] }

/-- C3 loop input with the given clock minute. -/
def c3In (m : Nat) : LoopInput :=
  { wifiUp := true, netEpoch := 1, brokerOk := true, minutes := m,
    epoch := 160, lux := 100, ct := 4000 }

/-- C3: with `sendInterval = 1` and `lastSendTime` initially 0, running the
connected loop body over the clock-minute sequence [0,0,1,2] triggers a
sensor read exactly at the iterations whose minute is 1 and 2, not at
either iteration with minute 0; two reads total. -/
theorem c3_minute_sequence_trigger :
    readHappens c3State (c3In 0) = false ∧
    readHappens (run c3State [c3In 0]) (c3In 0) = false ∧
    readHappens (run c3State [c3In 0, c3In 0]) (c3In 1) = true ∧
    readHappens (run c3State [c3In 0, c3In 0, c3In 1]) (c3In 2) = true ∧
    (run c3State [c3In 0, c3In 0, c3In 1, c3In 2]).readingCount = 2 := by
  decide

/-- C4: in any loop iteration in which `connectToBroker()` is invoked (the
client reports not connected) and the connect attempt fails, `readingCount`
is not incremented, nothing is published, and `lastSendTime` is unchanged. -/
theorem c4_failed_connect_no_effect (s : LoggerState) (inp : LoopInput)
    (hm : s.mqttConnected = false) (hb : inp.brokerOk = false) :
    (loopStep s inp).readingCount = s.readingCount ∧
    (loopStep s inp).published = s.published ∧
    (loopStep s inp).lastSendTime = s.lastSendTime := by
  cases hw : inp.wifiUp <;>
    simp [loopStep, loopBody, hw, hm, hb, connectToBroker,
      syncClockMqttConnected, syncClockReadingCount, syncClockPublished,
      syncClockLastSendTime]

/-- Concrete state for the C4 witness. -/
def c4State : LoggerState :=
  { addressString := "f0e1d2c3b4a5", wifiConnected := true,
    mqttConnected := false, startTime := 50, lastSendTime := 2,
    readingCount := 6, rtcEpoch := 80, subscriptions := [],
    published := [("light-readings/lux", "7")] }

/-- Concrete input for the C4 witness. -/
def c4Input : LoopInput :=
  { wifiUp := true, netEpoch := 9, brokerOk := false, minutes := 30,
    epoch := 80, lux := 7, ct := 8 }

/-- Witness for C4 at a concrete state and input. -/
theorem c4_failed_connect_no_effect_witness :
    (loopStep c4State c4Input).readingCount = c4State.readingCount ∧
    (loopStep c4State c4Input).published = c4State.published ∧
    (loopStep c4State c4Input).lastSendTime = c4State.lastSendTime :=
  c4_failed_connect_no_effect c4State c4Input rfl rfl

/-- C7: every invocation of `readSensor()` performs exactly seven
independent publish operations, one per field, in source order, to the
subtopics uid, location, timeStamp, lux, ct, uptime, readingCount under the
base topic, each payload the field's value encoded as a string. -/
theorem c7_read_sensor_seven_publishes (addr : String)
    (epoch st lux ct rc : Nat) :
    readSensor addr epoch st lux ct rc =
      [ ("light-readings/uid", addr)
      , ("light-readings/location", "home")
      , ("light-readings/timeStamp", toString epoch)
      , ("light-readings/lux", toString lux)
      , ("light-readings/ct", toString ct)
      , ("light-readings/uptime", toString (usub32 epoch st))
      , ("light-readings/readingCount", toString rc) ] ∧
    (readSensor addr epoch st lux ct rc).length = 7 :=
  ⟨rfl, rfl⟩

theorem runReadingCount : ∀ (ins : List LoopInput) (s : LoggerState),
    s.readingCount + ins.length < u32Mod →
    (run s ins).readingCount = s.readingCount + numReads s ins := by
  intro ins
  induction ins with
  | nil => intro s _; simp [run, numReads]
  | cons inp rest ih =>
      intro s h
      have hstep := loopStepReadingCount s inp
      have hrun : run s (inp :: rest) = run (loopStep s inp) rest := rfl
      rw [hrun]
      simp only [List.length_cons] at h
      by_cases hr : readHappens s inp = true
      · have hlt : s.readingCount + 1 < u32Mod := by omega
        have hc : (loopStep s inp).readingCount = s.readingCount + 1 := by
          rw [hstep, if_pos hr, Nat.mod_eq_of_lt hlt]
        rw [ih _ (by rw [hc]; omega), hc]
        simp only [numReads, hr, if_pos]
        omega
      · have hc : (loopStep s inp).readingCount = s.readingCount := by
          rw [hstep, if_neg hr]
        have hnr : numReads s (inp :: rest) = numReads (loopStep s inp) rest := by
          simp [numReads, hr]
        rw [ih _ (by rw [hc]; omega), hc, hnr]

/-- C5: across every sequence of loop iterations whose total length keeps
the 32-bit counter from overflowing (overflow being explicitly out of
scope), `readingCount` after the run equals its initial value plus the
number of completed read-and-publish cycles — it is incremented exactly
once per completed cycle, never reset — and is monotonically
non-decreasing. -/
theorem c5_reading_count_invariant (s : LoggerState) (ins : List LoopInput)
    (h : s.readingCount + ins.length < u32Mod) :
    (run s ins).readingCount = s.readingCount + numReads s ins ∧
    s.readingCount ≤ (run s ins).readingCount := by
  have hmain := runReadingCount ins s h
  exact ⟨hmain, by rw [hmain]; omega⟩

/-- Concrete state for the C5 witness. -/
def c5WState : LoggerState :=
  { addressString := "aabbccddeeff", wifiConnected := true,
    mqttConnected := true, startTime := 10, lastSendTime := 0,
    readingCount := 0, rtcEpoch := 10, subscriptions := ["light-readings"],
    published := [] }

/-- Concrete input list for the C5 witness. -/
def c5WIns : List LoopInput :=
  [ { wifiUp := true, netEpoch := 1, brokerOk := true, minutes := 0,
      epoch := 10, lux := 1, ct := 2 }
  , { wifiUp := true, netEpoch := 1, brokerOk := true, minutes := 1,
      epoch := 70, lux := 3, ct := 4 } ]

/-- Witness for C5 at a concrete state and input sequence. -/
theorem c5_reading_count_invariant_witness :
    c5WState.readingCount + c5WIns.length < u32Mod ∧
    ((run c5WState c5WIns).readingCount =
        c5WState.readingCount + numReads c5WState c5WIns ∧
      c5WState.readingCount ≤ (run c5WState c5WIns).readingCount) :=
  ⟨by decide, c5_reading_count_invariant c5WState c5WIns (by decide)⟩

theorem foldSyncClockStartTime : ∀ (l : List Nat) (s : LoggerState),
    s.startTime ≠ 0 → (l.foldl syncClock s).startTime = s.startTime := by
  intro l
  induction l with
  | nil => intro s _; rfl
  | cons e rest ih =>
      intro s h
      have h1 : (syncClock s e).startTime = s.startTime :=
        syncClockStartTimePos s e h
      calc (List.foldl syncClock s (e :: rest)).startTime
          = (List.foldl syncClock (syncClock s e) rest).startTime := rfl
        _ = (syncClock s e).startTime := ih _ (by rw [h1]; exact h)
        _ = s.startTime := h1

/-- C6: starting from the boot state (`startTime = 0`), over any sequence
of completed `connectToNetwork()` invocations delivering nonzero network
epochs, `startTime` is assigned its nonzero value exactly on the first
successful time sync and is never modified by any later
resynchronization. -/
theorem c6_start_time_set_once (s : LoggerState) (e0 : Nat) (rest : List Nat)
    (h0 : s.startTime = 0) (he : e0 ≠ 0) (hrest : ∀ e ∈ rest, e ≠ 0) :
    ((e0 :: rest).foldl syncClock s).startTime = e0 ∧
    ((e0 :: rest).foldl syncClock s).startTime ≠ 0 := by
  have h1 : (syncClock s e0).startTime = e0 := syncClockStartTimeZero s e0 h0
  have h2 : (List.foldl syncClock s (e0 :: rest)).startTime = e0 :=
    calc (List.foldl syncClock s (e0 :: rest)).startTime
        = (List.foldl syncClock (syncClock s e0) rest).startTime := rfl
      _ = (syncClock s e0).startTime :=
          foldSyncClockStartTime rest _ (by rw [h1]; exact he)
      _ = e0 := h1
  exact ⟨h2, by rw [h2]; exact he⟩

/-- Concrete boot state for the C6 witness. -/
def c6State : LoggerState :=
  { addressString := "aabbccddeeff", wifiConnected := false,
    mqttConnected := false, startTime := 0, lastSendTime := 0,
    readingCount := 0, rtcEpoch := 0, subscriptions := [],
    published := [] }

/-- Witness for C6: three syncs with nonzero epochs leave `startTime` at
the first epoch. -/
theorem c6_start_time_set_once_witness :
    c6State.startTime = 0 ∧ (1623600000 : Nat) ≠ 0 ∧
    (∀ e ∈ [1623600060, 1623600120], e ≠ 0) ∧
    (([1623600000, 1623600060, 1623600120].foldl syncClock c6State).startTime
        = 1623600000 ∧
      ([1623600000, 1623600060, 1623600120].foldl syncClock
        c6State).startTime ≠ 0) :=
  ⟨rfl, by decide, by decide,
   c6_start_time_set_once c6State 1623600000 [1623600060, 1623600120]
     rfl (by decide) (by decide)⟩

/-- C8: for every 6-byte MAC address (bytes below 256), the device-identity
string built at startup has exactly 12 characters, all lowercase
hexadecimal, with each byte rendered as exactly two hex digits (a "0" is
prepended below 16), and no loop iteration ever mutates it after setup. -/
theorem c8_address_string_format (mac : List Nat)
    (h6 : mac.length = 6) (hb : ∀ b ∈ mac, b < 256) :
    (buildAddressString mac).length = 12 ∧
    (∀ b ∈ mac, (byteHex b).length = 2) ∧
    (∀ c ∈ (buildAddressString mac).data, isHexLower c = true) ∧
    (∀ (s : LoggerState) (inp : LoopInput),
      (loopStep s inp).addressString = s.addressString) := by
  refine ⟨?_, ?_, ?_, fun s inp => loopStepAddressString s inp⟩
  · rw [buildAddressStringEq]
    unfold reversedMacHex
    rw [concatHex2Length, List.length_reverse, h6]
  · intro b _
    rw [byteHexEqTwoHex]
    exact twoHexLowerLength b
  · intro c hc
    rw [buildAddressStringEq] at hc
    exact concatHex2Chars mac.reverse
      (fun b hbm => hb b (List.mem_reverse.mp hbm)) c hc

/-- Concrete MAC for the C8 witness. -/
def c8Mac : List Nat := [1, 2, 171, 255, 0, 16]

/-- Witness for C8 at a concrete MAC address. -/
theorem c8_address_string_format_witness :
    c8Mac.length = 6 ∧ (∀ b ∈ c8Mac, b < 256) ∧
    ((buildAddressString c8Mac).length = 12 ∧
      (∀ b ∈ c8Mac, (byteHex b).length = 2) ∧
      (∀ c ∈ (buildAddressString c8Mac).data, isHexLower c = true) ∧
      (∀ (s : LoggerState) (inp : LoopInput),
        (loopStep s inp).addressString = s.addressString)) :=
  ⟨by decide, by decide, c8_address_string_format c8Mac (by decide) (by decide)⟩

theorem awaitWifiSome (env : NetEnv) : ∀ (fuel start : Nat),
    (∃ j, j < fuel ∧ env.status (start + j) = true) →
    ∃ k, awaitWifi env start fuel = some k := by
  intro fuel
  induction fuel with
  | zero =>
      rintro start ⟨j, hj, _⟩
      exact absurd hj (Nat.not_lt_zero j)
  | succ f ih =>
      rintro start ⟨j, hj, hs⟩
      by_cases h0 : env.status start = true
      · exact ⟨start, by simp [awaitWifi, h0]⟩
      · cases j with
        | zero => rw [Nat.add_zero] at hs; exact absurd hs h0
        | succ jp =>
            have hs2 : env.status (start + 1 + jp) = true := by
              rw [show start + 1 + jp = start + (jp + 1) by omega]; exact hs
            obtain ⟨k, hk⟩ := ih (start + 1) ⟨jp, by omega, hs2⟩
            exact ⟨k, by simp [awaitWifi, h0, hk]⟩

theorem awaitTimeSome (env : NetEnv) : ∀ (fuel start : Nat),
    (∃ j, j < fuel ∧ env.getTime (start + j) ≠ 0) →
    ∃ e, awaitTime env start fuel = some e ∧ e ≠ 0 ∧
      ∃ k, env.getTime k = e := by
  intro fuel
  induction fuel with
  | zero =>
      rintro start ⟨j, hj, _⟩
      exact absurd hj (Nat.not_lt_zero j)
  | succ f ih =>
      rintro start ⟨j, hj, hs⟩
      by_cases h0 : env.getTime start ≠ 0
      · exact ⟨env.getTime start, by simp [awaitTime, h0], h0, start, rfl⟩
      · cases j with
        | zero => rw [Nat.add_zero] at hs; exact absurd hs h0
        | succ jp =>
            have hs2 : env.getTime (start + 1 + jp) ≠ 0 := by
              rw [show start + 1 + jp = start + (jp + 1) by omega]; exact hs
            obtain ⟨e, he, he0, k, hk⟩ := ih (start + 1) ⟨jp, by omega, hs2⟩
            exact ⟨e, by simp [awaitTime, h0, he], he0, k, hk⟩

/-- C9: under the precondition that some association attempt eventually
reports connected and some time fetch eventually returns a nonzero epoch,
`connectToNetwork()` terminates (some finite fuel covers its two retry
loops); on return the link is associated and the RTC holds a nonzero epoch
fetched from the network. The function returns the updated state and no
failure value — failure is not representable, the loops can only stall. -/
theorem c9_connect_to_network_terminates (env : NetEnv) (s : LoggerState)
    (hw : ∃ n, env.status n = true) (ht : ∃ m, env.getTime m ≠ 0) :
    ∃ fuel sf, connectToNetworkFuel env s fuel = some sf ∧
      sf.wifiConnected = true ∧ sf.rtcEpoch ≠ 0 ∧
      ∃ k, env.getTime k = sf.rtcEpoch := by
  obtain ⟨n, hn⟩ := hw
  obtain ⟨m, hm⟩ := ht
  obtain ⟨k, hk⟩ :=
    awaitWifiSome env (n + m + 1) 0 ⟨n, by omega, by simpa using hn⟩
  obtain ⟨e, he, he0, k2, hk2⟩ :=
    awaitTimeSome env (n + m + 1) 0 ⟨m, by omega, by simpa using hm⟩
  refine ⟨n + m + 1, syncClock s e, ?_, syncClockWifiConnected s e, ?_, ?_⟩
  · simp [connectToNetworkFuel, hk, he]
  · rw [syncClockRtcEpoch]; exact he0
  · exact ⟨k2, by rw [syncClockRtcEpoch]; exact hk2⟩

/-- Environment for the C9 witness: association succeeds at the first
check, the first time fetch already returns a nonzero epoch. -/
def c9Env : NetEnv := { status := fun _ => true, getTime := fun _ => 1623600000 }

/-- Boot state for the C9 witness. -/
def c9State : LoggerState :=
  { addressString := "aabbccddeeff", wifiConnected := false,
    mqttConnected := false, startTime := 0, lastSendTime := 0,
    readingCount := 0, rtcEpoch := 0, subscriptions := [],
    published := [] }

/-- Witness for C9 at a concrete environment and state. -/
theorem c9_connect_to_network_terminates_witness :
    (∃ n, c9Env.status n = true) ∧ (∃ m, c9Env.getTime m ≠ 0) ∧
    (∃ fuel sf, connectToNetworkFuel c9Env c9State fuel = some sf ∧
      sf.wifiConnected = true ∧ sf.rtcEpoch ≠ 0 ∧
      ∃ k, c9Env.getTime k = sf.rtcEpoch) :=
  ⟨⟨0, rfl⟩, ⟨0, by decide⟩,
   c9_connect_to_network_terminates c9Env c9State ⟨0, rfl⟩ ⟨0, by decide⟩⟩

/-- C10: the device-identity string iterates the six MAC bytes from index 5
down to index 0, so it equals the hardware address in reversed byte order
with each byte as two lowercase hexadecimal digits. -/
theorem c10_address_reversed_bytes (mac : List Nat)
    (h6 : mac.length = 6) (hb : ∀ b ∈ mac, b < 256) :
    buildAddressString mac = reversedMacHex mac ∧
    (∀ c ∈ (buildAddressString mac).data, isHexLower c = true) := by
  refine ⟨buildAddressStringEq mac, ?_⟩
  intro c hc
  rw [buildAddressStringEq] at hc
  exact concatHex2Chars mac.reverse
    (fun b hbm => hb b (List.mem_reverse.mp hbm)) c hc

/-- Concrete MAC for the C10 witness. -/
def c10Mac : List Nat := [222, 173, 190, 239, 1, 2]

/-- Witness for C10 at a concrete MAC address. -/
theorem c10_address_reversed_bytes_witness :
    c10Mac.length = 6 ∧ (∀ b ∈ c10Mac, b < 256) ∧
    (buildAddressString c10Mac = reversedMacHex c10Mac ∧
      (∀ c ∈ (buildAddressString c10Mac).data, isHexLower c = true)) :=
  ⟨by decide, by decide,
   c10_address_reversed_bytes c10Mac (by decide) (by decide)⟩
